import Mathlib

/-!
# Verification of the Sarvekshan-AI natural-language query pipeline,
# survey builder, and (spec-described) estimator / adaptive selector

Shallow embedding of the JavaScript sources:
* `src/NaturalLanguageQuery.js` — the `generateMockSQL` / `generateMockResults`
  functions and the `handleSubmit` state transitions of the query component;
* the `SurveyBuilder` component — field list and option-editing operations.

JavaScript strings are Lean `String`s; `String.prototype.includes` is substring
containment on the character list; `Math.random()` draws are modelled by an
explicit stream `r : Nat -> Nat` of externally supplied numbers (the `i`-th
draw, reduced mod the range the source multiplies by); JSON numbers are `Rat`.
-/

namespace Sarvekshan

/-- Executable substring test on character lists. -/
def listInfix (pat : List Char) : List Char → Bool
  | [] => pat.isEmpty
  | c :: rest => pat.isPrefixOf (c :: rest) || listInfix pat rest

/-- JS `String.prototype.includes`: substring containment. -/
def strIncludes (s pat : String) : Bool := listInfix pat.toList s.toList

/-- JS `String.prototype.toLowerCase` (simple per-character case mapping). -/
def jsToLower (s : String) : String := ⟨s.data.map Char.toLower⟩

/-- JS `String.prototype.startsWith`. -/
def strStartsWith (s pat : String) : Bool := pat.toList.isPrefixOf s.toList

/-- `lowerQuery.includes('average') || lowerQuery.includes('avg')`. -/
def hasAvgKeyword (q : String) : Bool :=
  strIncludes (jsToLower q) "average" || strIncludes (jsToLower q) "avg"

/-- `lowerQuery.includes('count') || lowerQuery.includes('how many')`. -/
def hasCountKeyword (q : String) : Bool :=
  strIncludes (jsToLower q) "count" || strIncludes (jsToLower q) "how many"

/-- `lowerQuery.includes('top') || lowerQuery.includes('most')`. -/
def hasTopKeyword (q : String) : Bool :=
  strIncludes (jsToLower q) "top" || strIncludes (jsToLower q) "most"

/-- The SQL template returned by the `average`/`avg` branch of `generateMockSQL`. -/
def sqlAvg : String :=
  "SELECT category, AVG(score) as average_score FROM survey_responses GROUP BY category"

/-- The SQL template returned by the `count`/`how many` branch of `generateMockSQL`. -/
def sqlCount : String :=
  "SELECT COUNT(*) as total_count FROM survey_responses WHERE condition = 'value'"

/-- The SQL template returned by the `top`/`most` branch of `generateMockSQL`. -/
def sqlTop : String :=
  "SELECT item, COUNT(*) as frequency FROM data_table GROUP BY item ORDER BY frequency DESC LIMIT 5"

/-- The SQL template returned by the fall-through branch of `generateMockSQL`. -/
def sqlDefault : String :=
  "SELECT * FROM survey_responses WHERE relevant_condition = 'value' ORDER BY created_at DESC"

/-- `generateMockSQL` from `src/NaturalLanguageQuery.js` (lines 101-113):
lowercases the query and dispatches on keyword containment to one of four
fixed SQL template strings. -/
def generateMockSQL (query : String) : String :=
  if hasAvgKeyword query then sqlAvg
  else if hasCountKeyword query then sqlCount
  else if hasTopKeyword query then sqlTop
  else sqlDefault

/-- A JSON scalar appearing in mock result rows. -/
inductive JsonVal where
  | str : String → JsonVal
  | num : ℚ → JsonVal
deriving DecidableEq, Repr

/-- A result row: ordered field-name / value pairs. -/
abbrev Row := List (String × JsonVal)

/-- The `{ data, count }` object returned by `generateMockResults`. -/
structure MockResults where
  data : List Row
  count : Nat
deriving DecidableEq, Repr

/-- `generateMockResults` from `src/NaturalLanguageQuery.js` (lines 115-142).
The `count` branch computes `Math.floor(Math.random() * 1000) + 100`; the
default branch computes `Math.floor(Math.random() * 5) + 1` per row.  Each
`Math.floor(Math.random() * k)` draw is modelled as `r i % k` where `r` is the
stream of random draws. -/
def generateMockResults (query : String) (r : Nat → Nat) : MockResults :=
  if hasAvgKeyword query then
    { data :=
        [ [("category", .str "Product"), ("average_score", .num (42/10))]
        , [("category", .str "Service"), ("average_score", .num (45/10))]
        , [("category", .str "Support"), ("average_score", .num (41/10))] ]
      count := 3 }
  else if hasCountKeyword query then
    { data := [[("total_count", .num ((r 0 % 1000 + 100 : ℕ) : ℚ))]], count := 1 }
  else
    { data := (List.range 5).map (fun (i : ℕ) =>
        [ ("id", .num ((i + 1 : ℕ) : ℚ))
        , ("value", .str ("Sample data " ++ toString (i + 1)))
        , ("score", .num (((r i % 5 + 1 : ℕ)) : ℚ)) ])
      count := 5 }

/-- JS `String.prototype.trim`: strip leading and trailing whitespace. -/
def jsTrim (s : String) : String :=
  ⟨((s.data.dropWhile Char.isWhitespace).reverse.dropWhile Char.isWhitespace).reverse⟩

/-- The `status` strings used for query-history entries. -/
inductive QueryStatus where
  | processing
  | completed
  | failed
deriving DecidableEq, Repr

/-- One entry of the `queries` history list of the `NaturalLanguageQuery`
component.  A freshly submitted entry has no `sql`, `results` or `error`
key; timestamps (`Date.now()` / ISO strings) are modelled as naturals. -/
structure QueryEntry where
  id : ℕ
  query : String
  status : QueryStatus
  timestamp : ℕ
  sql : Option String := none
  results : Option MockResults := none
  error : Option String := none
deriving DecidableEq, Repr

/-- The component state touched by `handleSubmit`: the textarea value
`query`, the history list `queries`, and the `isLoading` flag. -/
structure NLQState where
  query : String
  queries : List QueryEntry
  isLoading : Bool
deriving DecidableEq, Repr

/-- The `newQuery` object built in `handleSubmit` (lines 67-72):
`{ id: Date.now(), query: query.trim(), status: "processing", timestamp: now }`. -/
def mkNewEntry (q : String) (now : ℕ) : QueryEntry :=
  { id := now, query := jsTrim q, status := .processing, timestamp := now }

/-- The synchronous prefix of `handleSubmit` (lines 60-75): bail out when the
trimmed query is empty (`if (!query.trim()) return`), otherwise set
`isLoading`, prepend the new entry (`[newQuery, ...prev]`) and clear the
textarea. -/
def handleSubmitStart (st : NLQState) (now : ℕ) : NLQState :=
  if jsTrim st.query = "" then st
  else
    { st with
        isLoading := true
        queries := mkNewEntry st.query now :: st.queries
        query := "" }

/-- The per-entry success update of `handleSubmit` (lines 85-89):
`q.id === newQuery.id ? { ...q, sql, results, status: "completed" } : q`. -/
def completeEntry (qid : ℕ) (sql : String) (results : MockResults)
    (q : QueryEntry) : QueryEntry :=
  if q.id = qid then
    { q with sql := some sql, results := some results, status := .completed }
  else q

/-- The success continuation of `handleSubmit`: map the per-entry update over
the history and clear `isLoading` (the `finally` block). -/
def completeQuery (st : NLQState) (qid : ℕ) (sql : String)
    (results : MockResults) : NLQState :=
  { st with queries := st.queries.map (completeEntry qid sql results), isLoading := false }

/-- The per-entry failure update of `handleSubmit` (lines 91-95). -/
def failEntry (qid : ℕ) (q : QueryEntry) : QueryEntry :=
  if q.id = qid then
    { q with status := .failed, error := some "Failed to process query" }
  else q

/-- The failure continuation of `handleSubmit`. -/
def failQuery (st : NLQState) (qid : ℕ) : NLQState :=
  { st with queries := st.queries.map (failEntry qid), isLoading := false }

/-! ## SurveyBuilder (src/unnamed/part_003) -/

/-- One `{ value, label }` option of a select/radio/checkbox field. -/
structure OptionItem where
  value : String
  label : String
deriving DecidableEq, Repr

/-- The `validation` object of a builder field. -/
structure Validation where
  min : Option ℚ := none
  max : Option ℚ := none
  maxLength : Option ℕ := none
deriving DecidableEq, Repr

/-- A field as built by `SurveyBuilder` (`newField` shape in `handleDragEnd`). -/
structure BField where
  id : String
  type : String
  label : String
  required : Bool
  options : Option (List OptionItem)
  validation : Validation := {}
deriving DecidableEq, Repr

/-- The `FIELD_TYPES` palette (type, label). -/
def FIELD_TYPES : List (String × String) :=
  [ ("text", "Text Input"), ("textarea", "Text Area"), ("number", "Number")
  , ("email", "Email"), ("select", "Dropdown"), ("radio", "Radio Buttons")
  , ("checkbox", "Checkboxes"), ("date", "Date"), ("rating", "Rating") ]

/-- `fieldType.type === 'select' || 'radio' || 'checkbox'` — the field types
that carry an options list. -/
def isOptionType (t : String) : Bool :=
  t == "select" || t == "radio" || t == "checkbox"

/-- The `newField` object of `handleDragEnd` (lines 28-37): option-bearing
types start with exactly the one option `{ value: 'option1', label: 'Option 1' }`,
all other types with `options: undefined`.  An out-of-range palette index
(impossible through the drag-and-drop UI) yields `none`. -/
def mkNewField (srcIndex : ℕ) (now : ℕ) : Option BField :=
  (FIELD_TYPES.get? srcIndex).map (fun ft =>
    { id := "field_" ++ toString now
      type := ft.1
      label := "New " ++ ft.2
      required := false
      options := if isOptionType ft.1 then some [⟨"option1", "Option 1"⟩] else none })

/-- `updateField` (lines 53-59): map the update over the fields with a
matching id. -/
def updateFieldWith (fields : List BField) (fid : String)
    (f : BField → BField) : List BField :=
  fields.map (fun g => if g.id == fid then f g else g)

/-- The palette-to-canvas branch of `handleDragEnd`: splice the new field in
at the destination index (JS `splice` clamps the index to the length). -/
def dragNewFieldOp (fields : List BField) (srcIndex destIndex now : ℕ) :
    List BField :=
  match mkNewField srcIndex now with
  | some nf => fields.insertIdx (min destIndex fields.length) nf
  | none => fields

/-- The reorder branch of `handleDragEnd`: remove the dragged field and
re-insert it at the destination index. -/
def reorderOp (fields : List BField) (srcIndex destIndex : ℕ) : List BField :=
  match fields.get? srcIndex with
  | some f =>
    let removed := fields.eraseIdx srcIndex
    removed.insertIdx (min destIndex removed.length) f
  | none => fields

/-- `deleteField` (lines 61-64): `fields.filter(field => field.id !== fieldId)`. -/
def deleteFieldOp (fields : List BField) (fid : String) : List BField :=
  fields.filter (fun f => !(f.id == fid))

/-- The `value: label.toLowerCase().replace(/\s+/g, '_')` transform used by
`updateOption`: lower-case, then replace each whitespace run by one
underscore. -/
def replaceWsRuns : Bool → List Char → List Char
  | _, [] => []
  | inRun, c :: rest =>
    if c.isWhitespace then
      (if inRun then [] else ['_']) ++ replaceWsRuns true rest
    else c :: replaceWsRuns false rest

/-- The option `value` derived from a new option label. -/
def slugValue (s : String) : String := ⟨replaceWsRuns false (jsToLower s).data⟩

/-- `addOption` (lines 70-81): requires the field to exist and to carry an
options list (`field && field.options`), then appends
`optionN+1` via `updateField`. -/
def addOptionOp (fields : List BField) (fid : String) : List BField :=
  match fields.find? (fun f => f.id == fid) with
  | some f =>
    match f.options with
    | some opts =>
      let newOption : OptionItem :=
        ⟨"option" ++ toString (opts.length + 1), "Option " ++ toString (opts.length + 1)⟩
      updateFieldWith fields fid (fun g => { g with options := some (opts ++ [newOption]) })
    | none => fields
  | none => fields

/-- `updateOption` (lines 83-91): rewrite the option at `optIdx` with the new
label and its slugified value. -/
def updateOptionOp (fields : List BField) (fid : String) (optIdx : ℕ)
    (newLabel : String) : List BField :=
  match fields.find? (fun f => f.id == fid) with
  | some f =>
    match f.options with
    | some opts =>
      let newOpts := opts.mapIdx (fun i o =>
        if i = optIdx then ⟨slugValue newLabel, newLabel⟩ else o)
      updateFieldWith fields fid (fun g => { g with options := some newOpts })
    | none => fields
  | none => fields

/-- `removeOption` (lines 93-99): only acts when the field has more than one
option (`field.options.length > 1`); the JS `filter((_, index) => index !==
optionIndex)` removes exactly the element at that index. -/
def removeOptionOp (fields : List BField) (fid : String) (optIdx : ℕ) :
    List BField :=
  match fields.find? (fun f => f.id == fid) with
  | some f =>
    match f.options with
    | some opts =>
      if opts.length > 1 then
        updateFieldWith fields fid (fun g => { g with options := some (opts.eraseIdx optIdx) })
      else fields
    | none => fields
  | none => fields

/-- The operations the builder UI can perform on the field list. -/
inductive BuilderOp where
  | dragNewField (srcIndex destIndex now : ℕ)
  | reorderField (srcIndex destIndex : ℕ)
  | deleteField (fid : String)
  | updateLabel (fid : String) (label : String)
  | updateRequired (fid : String) (req : Bool)
  | updateValidation (fid : String) (v : Validation)
  | addOption (fid : String)
  | updateOption (fid : String) (optIdx : ℕ) (newLabel : String)
  | removeOption (fid : String) (optIdx : ℕ)
deriving DecidableEq, Repr

/-- One builder step applied to the field list. -/
def applyOp (fields : List BField) : BuilderOp → List BField
  | .dragNewField s d n => dragNewFieldOp fields s d n
  | .reorderField s d => reorderOp fields s d
  | .deleteField fid => deleteFieldOp fields fid
  | .updateLabel fid lbl => updateFieldWith fields fid (fun g => { g with label := lbl })
  | .updateRequired fid req => updateFieldWith fields fid (fun g => { g with required := req })
  | .updateValidation fid v => updateFieldWith fields fid (fun g => { g with validation := v })
  | .addOption fid => addOptionOp fields fid
  | .updateOption fid i lbl => updateOptionOp fields fid i lbl
  | .removeOption fid i => removeOptionOp fields fid i

/-- Per-field option well-formedness: option-bearing types carry an options
list, and no field carries an empty options list. -/
def fieldOK (f : BField) : Bool :=
  (!isOptionType f.type || f.options.isSome) &&
  (match f.options with
   | some opts => !opts.isEmpty
   | none => true)

/-- The option-count invariant over the whole field list. -/
def optionInvariant (fields : List BField) : Bool := fields.all fieldOK

/-! ## Statistical estimator (modelled from the spec)

The repository ships no estimator implementation under `src/` — only REST
documentation describing its inputs and outputs — so the estimator is
modelled from spec section 4.4. -/

/-- Modelled from the spec: the numeric values a stratum contributes — the
target-field values of the responses belonging to stratum `s`.  A response is
reduced to its `(stratum, coerced numeric target value)` pair; numbers are
exact rationals. -/
def stratumValues (responses : List (String × ℚ)) (s : String) : List ℚ :=
  (responses.filter (fun r => r.1 == s)).map (fun r => r.2)

/-- Arithmetic mean of a list of rationals (empty list yields `0`). -/
def listMean (xs : List ℚ) : ℚ := xs.sum / (xs.length : ℚ)

/-- Modelled from the spec: within-stratum sample variance; a stratum with
`n_s = 1` (or `0`) has its variance treated as `0`, not NaN (spec section
4.4, step 4). -/
def sampleVariance (xs : List ℚ) : ℚ :=
  if xs.length ≤ 1 then 0
  else ((xs.map (fun x => (x - listMean xs) ^ 2)).sum) / ((xs.length : ℚ) - 1)

/-- The `EstimationResult` record of the spec data model (the optional
design-effect fields are omitted; the claims do not touch them). -/
structure EstimationResult where
  mean : ℚ
  ciLow : ℚ
  ciHigh : ℚ
  standardError : ℚ
  sampleSize : ℕ
deriving DecidableEq, Repr

/-- The 95% normal quantile used by the spec (`z ≈ 1.96`). -/
def zValue : ℚ := 196/100

/-- Modelled from the spec: `estimate` for a stratified design (spec section
4.4).  `design` is the `populationProportions` mapping stratum → proportion;
the overall mean is the proportion-weighted stratum-mean combination
normalized so the weights sum to one; the variance estimate combines the
within-stratum variances (`Σ W_s² · s_s² / n_s`); the standard error is its
square root and the confidence interval is `mean ± z·SE`. -/
def estimate (responses : List (String × ℚ)) (design : List (String × ℚ)) :
    EstimationResult :=
  let totalW := (design.map (fun sp => sp.2)).sum
  let mean := (design.map (fun sp => sp.2 * listMean (stratumValues responses sp.1))).sum / totalW
  let varEst := (design.map (fun sp =>
      sp.2 ^ 2 * sampleVariance (stratumValues responses sp.1) /
        ((stratumValues responses sp.1).length : ℚ))).sum
  let se := Rat.sqrt varEst
  { mean := mean
    standardError := se
    ciLow := mean - zValue * se
    ciHigh := mean + zValue * se
    sampleSize := responses.length }

/-! ## Adaptive question selector (modelled from the spec)

The repository ships no selector implementation under `src/` — only REST
documentation for `/api/ml/adaptive-question` — so the selector is modelled
from spec sections 4.5 and 9 (tagged-variant branching predicates). -/

/-- Modelled from the spec: a branching-rule predicate
(`{kind: threshold|equals|rangeIn, field, params}`). -/
inductive Predicate where
  | threshold (field : String) (bound : ℚ)
  | equals (field : String) (val : ℚ)
  | rangeIn (field : String) (lo hi : ℚ)
deriving DecidableEq, Repr

/-- The accumulated responses: fieldId → recorded numeric value. -/
def lookupResponse (rs : List (String × ℚ)) (f : String) : Option ℚ :=
  (rs.find? (fun r => r.1 == f)).map (fun r => r.2)

/-- Modelled from the spec: the single predicate interpreter.  A predicate on
a field without a recorded response does not match. -/
def evalPred (rs : List (String × ℚ)) : Predicate → Bool
  | .threshold f b =>
    match lookupResponse rs f with
    | some v => decide (v ≤ b)
    | none => false
  | .equals f x =>
    match lookupResponse rs f with
    | some v => v == x
    | none => false
  | .rangeIn f lo hi =>
    match lookupResponse rs f with
    | some v => decide (lo ≤ v) && decide (v ≤ hi)
    | none => false

/-- A node of the Field graph: a field id and its outgoing branching rules
`(predicate, target field)` in declaration order. -/
structure FieldNode where
  id : String
  rules : List (Predicate × String)
deriving DecidableEq, Repr

/-- The `AdaptiveDecision` record of the spec data model. -/
structure AdaptiveDecision where
  nextFieldId : Option String
  reasoning : String
  surveyComplete : Bool
deriving DecidableEq, Repr

/-- The field that follows `cur` in the survey's static linear order. -/
def nextInOrder : List FieldNode → String → Option String
  | [], _ => none
  | f :: rest, cur =>
    if f.id == cur then (rest.head?).map (fun g => g.id)
    else nextInOrder rest cur

/-- Modelled from the spec: the adaptive question selector (spec section
4.5).  Evaluate the current field's rules in declaration order; the first
match decides the next field; otherwise fall back to the static linear
order; otherwise terminal. -/
def selectNext (graph : List FieldNode) (current : String)
    (rs : List (String × ℚ)) : AdaptiveDecision :=
  match graph.find? (fun f => f.id == current) with
  | none => { nextFieldId := none, reasoning := "current field not in graph", surveyComplete := true }
  | some node =>
    match node.rules.find? (fun r => evalPred rs r.1) with
    | some r =>
      { nextFieldId := some r.2, reasoning := "branching rule matched", surveyComplete := false }
    | none =>
      match nextInOrder graph current with
      | some fid =>
        { nextFieldId := some fid, reasoning := "static linear order", surveyComplete := false }
      | none =>
        { nextFieldId := none, reasoning := "survey complete", surveyComplete := true }

/-! ## Theorems -/

/-- Every query is rendered to one of the four fixed SQL templates. -/
theorem generateMockSQL_cases (q : String) :
    generateMockSQL q = sqlAvg ∨ generateMockSQL q = sqlCount ∨
    generateMockSQL q = sqlTop ∨ generateMockSQL q = sqlDefault := by
  unfold generateMockSQL
  by_cases h1 : hasAvgKeyword q = true
  · simp [h1]
  · by_cases h2 : hasCountKeyword q = true <;> by_cases h3 : hasTopKeyword q = true <;>
      simp [h1, h2, h3]

/-- C1 (counterexample): the query pipeline is not deterministic as claimed —
for the identical question "How many responses were submitted?" two
invocations of result generation that see different `Math.random()` draws
return different outputs. -/
theorem c1_results_depend_on_randomness :
    generateMockResults "How many responses were submitted?" (fun _ => 0) ≠
      generateMockResults "How many responses were submitted?" (fun _ => 1) := by
  decide

/-- C1 (amended): SQL generation is a pure function of the question string
alone, and result generation is independent of the random draws only on the
`average`/`avg` branch; on that branch, two invocations with identical
question agree regardless of the random stream. -/
theorem c1_avg_results_deterministic (q : String) (r₁ r₂ : ℕ → ℕ)
    (h : hasAvgKeyword q = true) :
    generateMockResults q r₁ = generateMockResults q r₂ := by
  unfold generateMockResults
  simp [h]

/-- C1 witness: concrete instantiation of the amended determinism theorem. -/
theorem c1_avg_results_deterministic_witness :
    hasAvgKeyword "average score by category" = true ∧
    generateMockResults "average score by category" (fun _ => 0) =
      generateMockResults "average score by category" (fun _ => 7) :=
  ⟨by decide, c1_avg_results_deterministic _ _ _ (by decide)⟩

/-- C2: for every input question the generated SQL text starts with the verb
SELECT, and none of the non-whitelisted verbs INSERT, UPDATE, DELETE, DROP
appears anywhere in it. -/
theorem c2_sql_always_select_shaped (q : String) :
    strStartsWith (generateMockSQL q) "SELECT" = true ∧
    strIncludes (generateMockSQL q) "INSERT" = false ∧
    strIncludes (generateMockSQL q) "UPDATE" = false ∧
    strIncludes (generateMockSQL q) "DELETE" = false ∧
    strIncludes (generateMockSQL q) "DROP" = false := by
  rcases generateMockSQL_cases q with h | h | h | h <;> rw [h] <;> decide

/-- C3: injection safety — for every question the rendered query text is one
of four fixed constant templates, none of which is built from the question
text, so no literal value from the question is ever interpolated into the
query. -/
theorem c3_sql_no_interpolation (q : String) :
    generateMockSQL q = sqlAvg ∨ generateMockSQL q = sqlCount ∨
    generateMockSQL q = sqlTop ∨ generateMockSQL q = sqlDefault :=
  generateMockSQL_cases q

/-- C4: parsing is total — every input string, including empty or
uninterpretable text, yields one of the four template results, and when no
aggregation keyword occurs the pipeline falls through to the default
no-aggregation SELECT. -/
theorem c4_parse_total_default_fallthrough (q : String) :
    (generateMockSQL q = sqlAvg ∨ generateMockSQL q = sqlCount ∨
     generateMockSQL q = sqlTop ∨ generateMockSQL q = sqlDefault) ∧
    (hasAvgKeyword q = false → hasCountKeyword q = false → hasTopKeyword q = false →
      generateMockSQL q = sqlDefault) := by
  refine ⟨generateMockSQL_cases q, fun h1 h2 h3 => ?_⟩
  unfold generateMockSQL
  simp [h1, h2, h3]

/-- C4 witness: the uninterpretable question "tell me a joke" falls through
to the default template. -/
theorem c4_parse_total_default_fallthrough_witness :
    generateMockSQL "tell me a joke" = sqlDefault :=
  (c4_parse_total_default_fallthrough "tell me a joke").2 (by decide) (by decide) (by decide)

/-- C5 (counterexample): the question "What is the average satisfaction
rating by age group?" is rendered to the fixed AVG template, which groups by
`category` over `score` and never mentions `satisfaction` or `age_group`, so
the claimed avg-by-group interpretation targeting satisfaction grouped by
age group (with a confidence score) does not hold of the code. -/
theorem c5_example_not_field_targeted :
    generateMockSQL "What is the average satisfaction rating by age group?" = sqlAvg ∧
    strIncludes sqlAvg "satisfaction" = false ∧
    strIncludes sqlAvg "age_group" = false := by
  refine ⟨by decide, by decide, by decide⟩

/-- C5 (amended): keyword dispatch as implemented — `average`/`avg` selects
the fixed AVG-with-GROUP-BY template, `count`/`how many` (absent an average
keyword) the COUNT template, `top`/`most` (absent both) the
count-group-order-limit template, and otherwise the default; the example
question lands on the AVG template rather than on a satisfaction/age-group
specific plan, and no confidence value exists. -/
theorem c5_amended_keyword_dispatch (q : String) :
    (hasAvgKeyword q = true → generateMockSQL q = sqlAvg) ∧
    (hasAvgKeyword q = false → hasCountKeyword q = true → generateMockSQL q = sqlCount) ∧
    (hasAvgKeyword q = false → hasCountKeyword q = false → hasTopKeyword q = true →
      generateMockSQL q = sqlTop) ∧
    (hasAvgKeyword q = false → hasCountKeyword q = false → hasTopKeyword q = false →
      generateMockSQL q = sqlDefault) := by
  unfold generateMockSQL
  exact ⟨fun h1 => by simp [h1],
         fun h1 h2 => by simp [h1, h2],
         fun h1 h2 h3 => by simp [h1, h2, h3],
         fun h1 h2 h3 => by simp [h1, h2, h3]⟩

/-- C5 witness: the example question selects the AVG template. -/
theorem c5_amended_keyword_dispatch_witness :
    generateMockSQL "What is the average satisfaction rating by age group?" = sqlAvg :=
  (c5_amended_keyword_dispatch "What is the average satisfaction rating by age group?").1
    (by decide)

/-- The square root of the rational zero is zero. -/
theorem ratSqrt_zero : Rat.sqrt 0 = 0 := rfl

/-- C6: `estimate` on a single stratum with a single respondent returns a
standard error equal to `0` (an exact rational, hence finite, non-negative
and not NaN) and a confidence interval collapsed onto the point estimate. -/
theorem c6_single_respondent_collapsed (s : String) (v p : ℚ) :
    (estimate [(s, v)] [(s, p)]).standardError = 0 ∧
    (estimate [(s, v)] [(s, p)]).ciLow = (estimate [(s, v)] [(s, p)]).mean ∧
    (estimate [(s, v)] [(s, p)]).ciHigh = (estimate [(s, v)] [(s, p)]).mean ∧
    (estimate [(s, v)] [(s, p)]).sampleSize = 1 ∧
    0 ≤ (estimate [(s, v)] [(s, p)]).standardError := by
  have hsv : stratumValues [(s, v)] s = [v] := by
    simp [stratumValues]
  have hvar : sampleVariance [v] = 0 := by
    simp [sampleVariance]
  unfold estimate
  simp [hsv, hvar, ratSqrt_zero]

/-- C7: the adaptive selector is a pure function of the Field graph, the
current field and the accumulated responses — two invocations over the same
response prefix return the same `AdaptiveDecision` (no hidden counters: the
embedding takes no other inputs). -/
theorem c7_selector_replay_deterministic (graph : List FieldNode) (current : String)
    (rs₁ rs₂ : List (String × ℚ)) (h : rs₁ = rs₂) :
    selectNext graph current rs₁ = selectNext graph current rs₂ := by
  rw [h]

/-- C7 witness: replaying a concrete satisfaction-threshold graph over the
same recorded responses reproduces the same decision. -/
theorem c7_selector_replay_deterministic_witness :
    selectNext [⟨"satisfaction", [(.threshold "satisfaction" 2, "follow_up")]⟩,
        ⟨"follow_up", []⟩] "satisfaction" [("satisfaction", 2)] =
      selectNext [⟨"satisfaction", [(.threshold "satisfaction" 2, "follow_up")]⟩,
        ⟨"follow_up", []⟩] "satisfaction" [("satisfaction", 2)] :=
  c7_selector_replay_deterministic _ _ _ _ rfl

/-- C8: submitting a blank (empty or whitespace-only) query leaves the whole
component state unchanged — in particular the history list is untouched and
no processing state is entered. -/
theorem c8_blank_query_frame (st : NLQState) (now : ℕ)
    (h : jsTrim st.query = "") :
    handleSubmitStart st now = st ∧
    (handleSubmitStart st now).queries = st.queries ∧
    (handleSubmitStart st now).isLoading = st.isLoading := by
  unfold handleSubmitStart
  simp [h]

/-- C8 witness: a whitespace-only submission at a concrete state is a no-op. -/
theorem c8_blank_query_frame_witness :
    handleSubmitStart ⟨"   ", [], false⟩ 0 = ⟨"   ", [], false⟩ :=
  (c8_blank_query_frame ⟨"   ", [], false⟩ 0 (by decide)).1

/-- C9: a submitted query is prepended at the head of the history, and the
completion and failure updates rewrite the history by a per-entry map that
leaves every entry whose id differs from the submitted id unchanged (hence
length and relative order are preserved). -/
theorem c9_history_update_isolation (st : NLQState) (now qid : ℕ)
    (sql : String) (res : MockResults) :
    (jsTrim st.query ≠ "" →
      (handleSubmitStart st now).queries = mkNewEntry st.query now :: st.queries) ∧
    (completeQuery st qid sql res).queries = st.queries.map (completeEntry qid sql res) ∧
    (completeQuery st qid sql res).queries.length = st.queries.length ∧
    (∀ q : QueryEntry, q.id ≠ qid → completeEntry qid sql res q = q) ∧
    (failQuery st qid).queries = st.queries.map (failEntry qid) ∧
    (failQuery st qid).queries.length = st.queries.length ∧
    (∀ q : QueryEntry, q.id ≠ qid → failEntry qid q = q) := by
  refine ⟨fun h => ?_, rfl, by simp [completeQuery], fun q hq => ?_, rfl,
    by simp [failQuery], fun q hq => ?_⟩
  · unfold handleSubmitStart
    simp [h]
  · unfold completeEntry
    simp [hq]
  · unfold failEntry
    simp [hq]

/-- C9 witness: at a concrete state the new entry lands at the head, and an
entry with a different id is untouched by the completion update. -/
theorem c9_history_update_isolation_witness :
    (handleSubmitStart ⟨"hi", [], false⟩ 5).queries = [mkNewEntry "hi" 5] ∧
    completeEntry 3 "sql" ⟨[], 0⟩ (mkNewEntry "hi" 5) = mkNewEntry "hi" 5 :=
  ⟨(c9_history_update_isolation ⟨"hi", [], false⟩ 5 3 "sql" ⟨[], 0⟩).1 (by decide),
   (c9_history_update_isolation ⟨"hi", [], false⟩ 5 3 "sql" ⟨[], 0⟩).2.2.2.1
     (mkNewEntry "hi" 5) (by decide)⟩

/-- A member of an invariant-satisfying field list is itself well-formed. -/
theorem fieldOK_of_mem {fields : List BField} (h : optionInvariant fields = true)
    {f : BField} (hf : f ∈ fields) : fieldOK f = true := by
  unfold optionInvariant at h
  exact (List.all_eq_true.mp h) f hf

/-- `updateField` preserves the invariant whenever the per-field update
preserves well-formedness. -/
theorem updateFieldWith_inv {fields : List BField} {fid : String} {f : BField → BField}
    (hinv : optionInvariant fields = true)
    (hf : ∀ g, fieldOK g = true → fieldOK (f g) = true) :
    optionInvariant (updateFieldWith fields fid f) = true := by
  unfold optionInvariant updateFieldWith
  rw [List.all_eq_true]
  intro x hx
  rw [List.mem_map] at hx
  obtain ⟨g, hg, rfl⟩ := hx
  by_cases h : (g.id == fid) = true
  · rw [if_pos h]
    exact hf g (fieldOK_of_mem hinv hg)
  · rw [if_neg h]
    exact fieldOK_of_mem hinv hg

/-- Setting a nonempty options list yields a well-formed field. -/
theorem fieldOK_set_options {g : BField} {opts : List OptionItem}
    (h : opts ≠ []) : fieldOK { g with options := some opts } = true := by
  unfold fieldOK
  simp [h]

/-- A field freshly created from the palette is well-formed. -/
theorem fieldOK_mkNewField {si now : ℕ} {nf : BField}
    (h : mkNewField si now = some nf) : fieldOK nf = true := by
  unfold mkNewField at h
  rw [Option.map_eq_some'] at h
  obtain ⟨ft, hft, rfl⟩ := h
  by_cases ho : isOptionType ft.1 = true <;> simp [fieldOK, ho]

/-- A well-formed field never carries an empty options list. -/
theorem opts_ne_nil_of_fieldOK {f : BField} {opts : List OptionItem}
    (hok : fieldOK f = true) (ho : f.options = some opts) : opts ≠ [] := by
  unfold fieldOK at hok
  rw [ho] at hok
  simp only [Bool.and_eq_true] at hok
  simpa using hok.2

/-- Every single builder operation preserves the option-count invariant. -/
theorem applyOp_inv (fields : List BField) (op : BuilderOp)
    (h : optionInvariant fields = true) :
    optionInvariant (applyOp fields op) = true := by
  cases op with
  | dragNewField si d now =>
    simp only [applyOp]
    unfold dragNewFieldOp
    cases hm : mkNewField si now with
    | none => exact h
    | some nf =>
      unfold optionInvariant
      rw [List.all_eq_true]
      intro x hx
      rw [List.mem_insertIdx (min_le_right d fields.length)] at hx
      rcases hx with rfl | hx
      · exact fieldOK_mkNewField hm
      · exact fieldOK_of_mem h hx
  | reorderField si d =>
    simp only [applyOp]
    unfold reorderOp
    cases hg : fields.get? si with
    | none => exact h
    | some f =>
      unfold optionInvariant
      rw [List.all_eq_true]
      intro x hx
      rw [List.mem_insertIdx (min_le_right d _)] at hx
      rcases hx with rfl | hx
      · exact fieldOK_of_mem h (List.get?_mem hg)
      · exact fieldOK_of_mem h ((List.eraseIdx_sublist fields si).subset hx)
  | deleteField fid =>
    simp only [applyOp]
    unfold deleteFieldOp optionInvariant
    rw [List.all_eq_true]
    intro x hx
    exact fieldOK_of_mem h (List.mem_of_mem_filter hx)
  | updateLabel fid lbl =>
    exact updateFieldWith_inv h (fun g hg => hg)
  | updateRequired fid req =>
    exact updateFieldWith_inv h (fun g hg => hg)
  | updateValidation fid v =>
    exact updateFieldWith_inv h (fun g hg => hg)
  | addOption fid =>
    simp only [applyOp]
    unfold addOptionOp
    split
    · split
      · exact updateFieldWith_inv h (fun g _ => fieldOK_set_options (by simp))
      · exact h
    · exact h
  | updateOption fid i lbl =>
    simp only [applyOp]
    unfold updateOptionOp
    split
    · rename_i f hf
      split
      · rename_i opts ho
        have hne : opts ≠ [] :=
          opts_ne_nil_of_fieldOK (fieldOK_of_mem h (List.mem_of_find?_eq_some hf)) ho
        refine updateFieldWith_inv h (fun g _ => fieldOK_set_options ?_)
        refine List.length_pos.mp ?_
        rw [List.length_mapIdx]
        exact List.length_pos.mpr hne
      · exact h
    · exact h
  | removeOption fid i =>
    simp only [applyOp]
    unfold removeOptionOp
    split
    · split
      · rename_i opts ho
        split
        · rename_i hlen
          refine updateFieldWith_inv h (fun g _ => fieldOK_set_options ?_)
          refine List.length_pos.mp ?_
          rw [List.length_eraseIdx]
          split <;> omega
        · exact h
      · exact h
    · exact h

/-- Any sequence of builder operations preserves the option-count invariant. -/
theorem foldl_applyOp_inv (ops : List BuilderOp) :
    ∀ fields, optionInvariant fields = true →
      optionInvariant (ops.foldl applyOp fields) = true := by
  induction ops with
  | nil => exact fun _ h => h
  | cons op rest ih => exact fun fields h => ih _ (applyOp_inv _ _ h)

/-- C10: from any field list satisfying the option-count invariant, no
sequence of builder operations can reach a select/radio/checkbox field with
an empty option list — every reachable option-bearing field keeps at least
one option; moreover a freshly created option-bearing field has exactly the
one option `Option 1`, and `removeOption` is a no-op on a field that has at
most one option left. -/
theorem c10_option_count_invariant (fields : List BField) (ops : List BuilderOp)
    (h : optionInvariant fields = true) :
    optionInvariant (ops.foldl applyOp fields) = true ∧
    (∀ f ∈ ops.foldl applyOp fields, isOptionType f.type = true →
      ∃ opts, f.options = some opts ∧ 1 ≤ opts.length) ∧
    (∀ si now nf, mkNewField si now = some nf → isOptionType nf.type = true →
      nf.options = some [⟨"option1", "Option 1"⟩]) ∧
    (∀ fid idx f opts, fields.find? (fun g => g.id == fid) = some f →
      f.options = some opts → opts.length ≤ 1 → removeOptionOp fields fid idx = fields) := by
  refine ⟨foldl_applyOp_inv ops fields h, ?_, ?_, ?_⟩
  · intro f hf hopt
    have hok := fieldOK_of_mem (foldl_applyOp_inv ops fields h) hf
    unfold fieldOK at hok
    simp only [Bool.and_eq_true, Bool.or_eq_true] at hok
    obtain ⟨h1, h2⟩ := hok
    rcases h1 with h1 | h1
    · rw [hopt] at h1
      simp at h1
    · obtain ⟨opts, ho⟩ := Option.isSome_iff_exists.mp h1
      refine ⟨opts, ho, ?_⟩
      rw [ho] at h2
      refine List.length_pos.mpr ?_
      simpa using h2
  · intro si now nf hm hopt
    unfold mkNewField at hm
    rw [Option.map_eq_some'] at hm
    obtain ⟨ft, hft, rfl⟩ := hm
    simp only at hopt
    simp [hopt]
  · intro fid idx f opts hf ho hle
    unfold removeOptionOp
    simp only [hf, ho]
    rw [if_neg (by omega)]

/-- C10 witness: dropping a Dropdown field onto an empty canvas, adding an
option and removing one keeps the invariant. -/
theorem c10_option_count_invariant_witness :
    optionInvariant
      ([BuilderOp.dragNewField 4 0 1, BuilderOp.addOption "field_1",
        BuilderOp.removeOption "field_1" 0].foldl applyOp []) = true :=
  (c10_option_count_invariant [] [BuilderOp.dragNewField 4 0 1,
    BuilderOp.addOption "field_1", BuilderOp.removeOption "field_1" 0] (by decide)).1

end Sarvekshan
